import Mathlib

/-!
Verification of the resilience core of the analytics API: the circuit
breaker (src/services/circuit_breaker.py), the fixed-window rate limiter
(src/services/rate_limiter.py), the cache-aside service
(src/services/cache_service.py) and the startup settings validation
(src/config/settings.py).

The Python code is embedded shallowly: each method becomes a pure Lean
function on an explicit state; timestamps (time.time()) are modelled by
integers; the protected asynchronous operation of the breaker is modelled
by an `Option V` (some v = the awaited call returned v, none = it raised);
a raised exception becomes a distinguished constructor of the result type.
The Redis backend is modelled per key, with an availability flag: when the
backend is unavailable every backend operation raises, which the embedding
renders as `Except Unit`.
-/

namespace Resilient

/-- The three circuit states of `CircuitState` in circuit_breaker.py. -/
inductive CircuitState where
  | CLOSED
  | OPEN
  | HALF_OPEN
deriving DecidableEq, Repr

/-- The mutable fields of the `CircuitBreaker` class, plus its
configuration.  `fallback_response` holds the value of
`self._fallback_response` after the constructor's
`fallback_response or {"status": "service_unavailable"}` resolution;
`V` is the type of values the protected operation returns. -/
structure CircuitBreaker (V : Type) where
  state : CircuitState
  failure_count : Int
  success_count : Int
  last_failure_time : Int
  failure_threshold : Int
  reset_timeout : Int
  fallback_response : V
  last_state_change : Int
deriving DecidableEq, Repr

/-- Result of one `CircuitBreaker.call`: the function's value, the
function's own exception propagated (`raise e`), or a raised
`CircuitBreakerOpenError`. -/
inductive CallResult (V : Type) where
  | ok : V → CallResult V
  | opError : CallResult V
  | circuitOpenError : CallResult V
deriving DecidableEq, Repr

/-- Outcome of one `CircuitBreaker.call`: its result, the breaker state
after the call, and whether the protected function was awaited. -/
structure CallOutcome (V : Type) where
  result : CallResult V
  breaker : CircuitBreaker V
  invoked : Bool
deriving DecidableEq, Repr

/-- `CircuitBreaker.__init__`: stores the configuration and starts
CLOSED with zero counts and `last_failure_time = 0`. -/
def CircuitBreaker.init (V : Type) (failure_threshold reset_timeout_seconds : Int)
    (fallback : V) (now : Int) : CircuitBreaker V :=
  { state := .CLOSED
    failure_count := 0
    success_count := 0
    last_failure_time := 0
    failure_threshold := failure_threshold
    reset_timeout := reset_timeout_seconds
    fallback_response := fallback
    last_state_change := now }

/-- `CircuitBreaker._record_success`: increment `success_count`, and reset
`failure_count` only while CLOSED. -/
def CircuitBreaker.record_success {V : Type} (cb : CircuitBreaker V) : CircuitBreaker V :=
  let cb1 := { cb with success_count := cb.success_count + 1 }
  if cb1.state = .CLOSED then { cb1 with failure_count := 0 } else cb1

/-- `CircuitBreaker._record_failure`: increment `failure_count` and stamp
`last_failure_time` with the current time. -/
def CircuitBreaker.record_failure {V : Type} (cb : CircuitBreaker V) (now : Int) :
    CircuitBreaker V :=
  { cb with failure_count := cb.failure_count + 1, last_failure_time := now }

/-- `CircuitBreaker._transition_to_closed`: when not already CLOSED, move
to CLOSED and zero both counters. -/
def CircuitBreaker.transition_to_closed {V : Type} (cb : CircuitBreaker V) (now : Int) :
    CircuitBreaker V :=
  if cb.state ≠ .CLOSED then
    { cb with state := .CLOSED, failure_count := 0, success_count := 0,
              last_state_change := now }
  else cb

/-- `CircuitBreaker._transition_to_open`: when not already OPEN, move to
OPEN and stamp `last_failure_time` and `last_state_change`. -/
def CircuitBreaker.transition_to_open {V : Type} (cb : CircuitBreaker V) (now : Int) :
    CircuitBreaker V :=
  if cb.state ≠ .OPEN then
    { cb with state := .OPEN, last_failure_time := now, last_state_change := now }
  else cb

/-- `CircuitBreaker._transition_to_half_open`: only from OPEN, move to
HALF_OPEN. -/
def CircuitBreaker.transition_to_half_open {V : Type} (cb : CircuitBreaker V) (now : Int) :
    CircuitBreaker V :=
  if cb.state = .OPEN then
    { cb with state := .HALF_OPEN, last_state_change := now }
  else cb

/-- `CircuitBreaker._check_state_transition`: while OPEN, move to
HALF_OPEN once `now - last_failure_time >= reset_timeout`. -/
def CircuitBreaker.check_state_transition {V : Type} (cb : CircuitBreaker V) (now : Int) :
    CircuitBreaker V :=
  if cb.state = .OPEN then
    if cb.reset_timeout ≤ now - cb.last_failure_time then
      cb.transition_to_half_open now
    else cb
  else cb

/-- `CircuitBreaker.call`.  `op = some v` means the awaited protected
function returns `v`; `op = none` means it raises.  The OPEN branch raises
`CircuitBreakerOpenError` without awaiting the function; the HALF_OPEN
branch performs the probe under the lock; the CLOSED branch awaits the
function and records the outcome, tripping to OPEN once
`failure_count >= failure_threshold`. -/
def CircuitBreaker.call {V : Type} (cb : CircuitBreaker V) (now : Int) (op : Option V) :
    CallOutcome V :=
  let cb0 := cb.check_state_transition now
  if cb0.state = .OPEN then
    ⟨.circuitOpenError, cb0, false⟩
  else if cb0.state = .HALF_OPEN then
    match op with
    | some v =>
        let cb1 := cb0.record_success
        let cb2 := cb1.transition_to_closed now
        ⟨.ok v, cb2, true⟩
    | none =>
        let cb1 := { cb0 with last_failure_time := now }
        let cb2 := cb1.transition_to_open now
        ⟨.circuitOpenError, cb2, true⟩
  else
    match op with
    | some v => ⟨.ok v, cb0.record_success, true⟩
    | none =>
        let cb1 := cb0.record_failure now
        let cb2 :=
          if cb1.failure_threshold ≤ cb1.failure_count then cb1.transition_to_open now
          else cb1
        ⟨.opError, cb2, true⟩

/-- A sequence of calls whose protected operation raises every time, made
at the given timestamps. -/
def CircuitBreaker.runFailures {V : Type} (cb : CircuitBreaker V) :
    List Int → CircuitBreaker V
  | [] => cb
  | t :: ts => ((cb.call t Option.none).breaker).runFailures ts

/-! ## Rate limiter (src/services/rate_limiter.py)

The Redis backend is modelled for a single client key: the counter entry
(absent or a value created at 1 by INCR) and the TTL attached by EXPIRE.
The `avail` flag models backend availability: when it is `false`, every
backend operation raises, rendered as `Except.error`. -/

/-- The Redis state backing one rate-limiter key: the counter (`none` =
key absent) and the TTL attached to it by EXPIRE (`none` = no expiry). -/
structure CounterState where
  count : Option Int
  ttl : Option Int
deriving DecidableEq, Repr

/-- The key is absent before the first request of a window. -/
def CounterState.empty : CounterState := ⟨none, none⟩

/-- Redis `INCR`: creates the key at 1 when absent, otherwise adds 1;
returns the post-increment value.  Raises when the backend is down. -/
def redisIncr (avail : Bool) (st : CounterState) : Except Unit (Int × CounterState) :=
  if avail then
    let c := (st.count.getD 0) + 1
    .ok (c, { st with count := some c })
  else .error ()

/-- Redis `EXPIRE key seconds`: attaches a TTL to the key.  Raises when
the backend is down. -/
def redisExpire (avail : Bool) (st : CounterState) (seconds : Int) :
    Except Unit CounterState :=
  if avail then .ok { st with ttl := some seconds } else .error ()

/-- The configuration stored by `RateLimiter.__init__` (which performs no
validation). -/
structure RateLimiter where
  threshold : Int
  window_seconds : Int
deriving DecidableEq, Repr

/-- `RateLimiter.__init__`: stores threshold and window unchecked. -/
def RateLimiter.init (threshold window_seconds : Int) : RateLimiter :=
  ⟨threshold, window_seconds⟩

/-- Outcome of one `allow_request`: the returned Bool, the backend state
after the request, and whether EXPIRE was invoked. -/
structure AllowOutcome where
  allowed : Bool
  backend : CounterState
  expire_invoked : Bool
deriving DecidableEq, Repr

/-- `RateLimiter.allow_request`: INCR, then EXPIRE on the first request of
the window (post-increment count 1), then deny once the post-increment
count exceeds the threshold; any backend exception is caught and the
request is allowed (fail-open). -/
def RateLimiter.allow_request (rl : RateLimiter) (avail : Bool) (st : CounterState) :
    AllowOutcome :=
  match redisIncr avail st with
  | .error _ => ⟨true, st, false⟩
  | .ok (current_count, st1) =>
    if current_count = 1 then
      match redisExpire avail st1 rl.window_seconds with
      | .error _ => ⟨true, st1, true⟩
      | .ok st2 => ⟨true, st2, true⟩
    else if rl.threshold < current_count then
      ⟨false, st1, false⟩
    else
      ⟨true, st1, false⟩

/-- The backend state after `n` consecutive `allow_request`s for one key,
starting from an absent key, with the backend up. -/
def RateLimiter.runRequests (rl : RateLimiter) : Nat → CounterState
  | 0 => CounterState.empty
  | n + 1 => (rl.allow_request true (rl.runRequests n)).backend

/-- The outcome of the `j`-th request (1-based): the request made on the
state left by the previous `j - 1` requests. -/
def RateLimiter.nthRequest (rl : RateLimiter) (j : Nat) : AllowOutcome :=
  rl.allow_request true (rl.runRequests (j - 1))

/-! ## Settings validation (src/config/settings.py) -/

/-- The settings fields that `Settings.validate` inspects, plus the
rate-limit window (which it does not inspect).  The float
`EXTERNAL_SERVICE_FAILURE_RATE` is modelled as a rational. -/
structure Settings where
  CACHE_TTL_SECONDS : Int
  RATE_LIMIT_REQUESTS : Int
  RATE_LIMIT_WINDOW_SECONDS : Int
  CIRCUIT_BREAKER_FAILURE_THRESHOLD : Int
  CIRCUIT_BREAKER_RESET_TIMEOUT : Int
  EXTERNAL_SERVICE_FAILURE_RATE : ℚ
deriving DecidableEq, Repr

/-- `Settings.validate`: asserts each listed condition in order, returning
`True`; an `AssertionError` is re-raised as `ValueError`, modelled as
`Except.error`.  It never inspects `RATE_LIMIT_WINDOW_SECONDS`. -/
def Settings.validate (s : Settings) : Except String Bool :=
  if 0 ≤ s.EXTERNAL_SERVICE_FAILURE_RATE ∧ s.EXTERNAL_SERVICE_FAILURE_RATE ≤ 1 then
    if 0 < s.RATE_LIMIT_REQUESTS then
      if 0 < s.CACHE_TTL_SECONDS then
        if 0 < s.CIRCUIT_BREAKER_FAILURE_THRESHOLD then
          if 0 < s.CIRCUIT_BREAKER_RESET_TIMEOUT then
            .ok true
          else .error "Invalid configuration"
        else .error "Invalid configuration"
      else .error "Invalid configuration"
    else .error "Invalid configuration"
  else .error "Invalid configuration"

/-! ## Cache service (src/services/cache_service.py)

Python values fetched from the cache are modelled as `Option J`: `none`
is Python `None` (the JSON value `null`), `some j` a non-null value of
type `J`.  The json library is an external collaborator; it is modelled
by an encoding pair `dumps : Option J → String` and
`loads : String → Option (Option J)` (outer `none` = `json.loads`
raised), assumed where needed to satisfy the documented json contract:
round-tripping on storable values and never producing the empty string.
The Redis backend stores serialized strings with an absolute expiry. -/

/-- The Redis keyspace backing the cache: each key maps to an absolute
expiry time and the stored serialized string. -/
def KVStore : Type := String → Option (Int × String)

/-- The empty keyspace. -/
def KVStore.empty : KVStore := fun _ => none

/-- Store an entry under a key, replacing any previous entry. -/
def KVStore.insert (st : KVStore) (k : String) (e : Int × String) : KVStore :=
  fun q => if q = k then some e else st q

/-- Redis `GET` at time `now`: the stored string when present and not yet
expired, otherwise absent.  Raises when the backend is down. -/
def redisGet (avail : Bool) (st : KVStore) (k : String) (now : Int) :
    Except Unit (Option String) :=
  if avail then
    .ok (match st k with
         | some (expiry, s) => if now < expiry then some s else none
         | none => none)
  else .error ()

/-- Redis `SETEX key seconds value` at time `now`: stores the string with
expiry `now + seconds`.  Raises when the backend is down. -/
def redisSetex (avail : Bool) (st : KVStore) (k : String) (seconds : Int)
    (value : String) (now : Int) : Except Unit KVStore :=
  if avail then .ok (st.insert k (now + seconds, value)) else .error ()

/-- The configuration stored by `CacheService.__init__`. -/
structure CacheService where
  default_ttl_seconds : Int
deriving DecidableEq, Repr

/-- `CacheService.get`: fetch the raw string; a falsy result (absent or
empty string) yields `None`; otherwise `json.loads` it, any exception
(backend or parse) being caught and converted to `None`. -/
def CacheService.get {J : Type} (loads : String → Option (Option J))
    (_cs : CacheService) (avail : Bool) (st : KVStore) (k : String) (now : Int) :
    Option J :=
  match redisGet avail st k now with
  | .error _ => none
  | .ok none => none
  | .ok (some cached_data) =>
    if cached_data = "" then none
    else
      match loads cached_data with
      | some v => v
      | none => none

/-- `CacheService.set`: resolve the TTL by Python's
`ttl_seconds or self.default_ttl_seconds` (so an explicit 0 falls back to
the default), `json.dumps` the value and SETEX it; returns `True` on
success and `False` when the backend raises (no exception escapes). -/
def CacheService.set {J : Type} (dumps : Option J → String)
    (cs : CacheService) (avail : Bool) (st : KVStore) (k : String) (v : Option J)
    (ttl_seconds : Option Int) (now : Int) : Bool × KVStore :=
  let ttl := match ttl_seconds with
             | some t => if t = 0 then cs.default_ttl_seconds else t
             | none => cs.default_ttl_seconds
  match redisSetex avail st k ttl (dumps v) now with
  | .ok st2 => (true, st2)
  | .error _ => (false, st)

/-- Outcome of one `get_or_set`: the returned value, the keyspace after
the call, and how many times the producer was awaited. -/
structure GetOrSetOutcome (J : Type) where
  result : Option J
  store : KVStore
  producer_calls : Nat

/-- `CacheService.get_or_set`: `get` the key; when the result `is not
None` return it without awaiting the producer; otherwise await the
producer once, `set` its result, and return it. -/
def CacheService.get_or_set {J : Type} (loads : String → Option (Option J))
    (dumps : Option J → String) (cs : CacheService) (avail : Bool) (st : KVStore)
    (k : String) (producer : Option J) (ttl_seconds : Option Int) (now : Int) :
    GetOrSetOutcome J :=
  match CacheService.get loads cs avail st k now with
  | some cached_data => ⟨some cached_data, st, 0⟩
  | none =>
    let data := producer
    let st2 := (CacheService.set dumps cs avail st k data ttl_seconds now).2
    ⟨data, st2, 1⟩

/-- A concrete instance of the json encoding restricted to booleans, used
to instantiate the encoding hypotheses: `json.dumps`/`json.loads` on
`None`, `True`, `False`. -/
def boolDumps : Option Bool → String
  | none => "null"
  | some true => "true"
  | some false => "false"

/-- `json.loads` on the strings produced by `boolDumps`; any other string
is a parse failure. -/
def boolLoads (s : String) : Option (Option Bool) :=
  if s = "null" then some none
  else if s = "true" then some (some true)
  else if s = "false" then some (some false)
  else none

/-! ## Circuit breaker lemmas -/

theorem check_state_transition_not_open {V : Type} (cb : CircuitBreaker V) (now : Int)
    (h : cb.state ≠ .OPEN) : cb.check_state_transition now = cb := by
  simp [CircuitBreaker.check_state_transition, h]

theorem call_closed_success {V : Type} (cb : CircuitBreaker V) (now : Int) (v : V)
    (h : cb.state = .CLOSED) :
    cb.call now (some v) =
      ⟨.ok v, { cb with success_count := cb.success_count + 1, failure_count := 0 },
       true⟩ := by
  have hno : cb.state ≠ .OPEN := by simp [h]
  simp [CircuitBreaker.call, check_state_transition_not_open cb now hno, h,
        CircuitBreaker.record_success]

theorem call_closed_failure_under {V : Type} (cb : CircuitBreaker V) (now : Int)
    (h : cb.state = .CLOSED) (hlt : cb.failure_count + 1 < cb.failure_threshold) :
    cb.call now none =
      ⟨.opError,
       { cb with failure_count := cb.failure_count + 1, last_failure_time := now },
       true⟩ := by
  have hno : cb.state ≠ .OPEN := by simp [h]
  simp [CircuitBreaker.call, check_state_transition_not_open cb now hno, h,
        CircuitBreaker.record_failure]
  omega

theorem call_closed_failure_trip {V : Type} (cb : CircuitBreaker V) (now : Int)
    (h : cb.state = .CLOSED) (hge : cb.failure_threshold ≤ cb.failure_count + 1) :
    cb.call now none =
      ⟨.opError,
       { cb with state := .OPEN, failure_count := cb.failure_count + 1,
                 last_failure_time := now, last_state_change := now },
       true⟩ := by
  have hno : cb.state ≠ .OPEN := by simp [h]
  simp [CircuitBreaker.call, check_state_transition_not_open cb now hno, h,
        CircuitBreaker.record_failure, CircuitBreaker.transition_to_open, hge]

theorem runFailures_closed_under {V : Type} (ts : List Int) :
    ∀ cb : CircuitBreaker V, cb.state = .CLOSED →
    cb.failure_count + (ts.length : Int) < cb.failure_threshold →
    (cb.runFailures ts).state = .CLOSED ∧
    (cb.runFailures ts).failure_count = cb.failure_count + (ts.length : Int) ∧
    (cb.runFailures ts).failure_threshold = cb.failure_threshold ∧
    (cb.runFailures ts).success_count = cb.success_count := by
  induction ts with
  | nil => intro cb h _; simp [CircuitBreaker.runFailures, h]
  | cons t ts ih =>
    intro cb h hlt
    simp only [List.length_cons] at hlt
    have hstep : cb.failure_count + 1 < cb.failure_threshold := by omega
    rw [CircuitBreaker.runFailures, call_closed_failure_under cb t h hstep]
    obtain ⟨h1, h2, h3, h4⟩ :=
      ih { cb with failure_count := cb.failure_count + 1, last_failure_time := t }
        (by simp [h]) (by dsimp only; omega)
    refine ⟨h1, ?_, ?_, ?_⟩
    · rw [h2]; dsimp only; simp only [List.length_cons]; omega
    · rw [h3]
    · rw [h4]

theorem runFailures_trip {V : Type} (ts : List Int) :
    ∀ cb : CircuitBreaker V, cb.state = .CLOSED →
    cb.failure_count + (ts.length : Int) = cb.failure_threshold →
    ts ≠ [] →
    (cb.runFailures ts).state = .OPEN := by
  induction ts with
  | nil => intro cb _ _ hne; exact absurd rfl hne
  | cons t ts ih =>
    intro cb h heq _
    cases ts with
    | nil =>
      have hge : cb.failure_threshold ≤ cb.failure_count + 1 := by
        simp only [List.length_cons, List.length_nil] at heq; push_cast at heq; omega
      rw [CircuitBreaker.runFailures, call_closed_failure_trip cb t h hge]
      simp [CircuitBreaker.runFailures]
    | cons t2 ts2 =>
      have hstep : cb.failure_count + 1 < cb.failure_threshold := by
        simp only [List.length_cons] at heq; omega
      rw [CircuitBreaker.runFailures, call_closed_failure_under cb t h hstep]
      apply ih
      · simp [h]
      · dsimp only; simp only [List.length_cons] at heq ⊢; omega
      · simp

theorem call_half_open_success {V : Type} (cb : CircuitBreaker V) (now : Int) (v : V)
    (h : cb.state = .HALF_OPEN) :
    cb.call now (some v) =
      ⟨.ok v,
       { cb with state := .CLOSED, failure_count := 0, success_count := 0,
                 last_state_change := now },
       true⟩ := by
  have hno : cb.state ≠ .OPEN := by simp [h]
  simp [CircuitBreaker.call, check_state_transition_not_open cb now hno, h,
        CircuitBreaker.record_success, CircuitBreaker.transition_to_closed]

theorem call_ok_from_op {V : Type} (cb : CircuitBreaker V) (now : Int) (op : Option V)
    (v : V) (h : (cb.call now op).result = .ok v) : op = some v := by
  unfold CircuitBreaker.call at h
  dsimp only at h
  split at h
  · exact absurd h (by simp)
  · split at h
    · cases op with
      | some w => simpa using h
      | none => exact absurd h (by simp)
    · cases op with
      | some w => simpa using h
      | none => exact absurd h (by simp)

/-- Claim C1: for every positive failure_threshold T, starting from a
Closed breaker with failure_count 0, T consecutive failing calls leave
the breaker Open (after only T - 1 of these failures it is still Closed,
so the T-th failure performs the Closed-to-Open transition), while T - 1
consecutive failing calls followed by one successful call leave the
breaker Closed with failure_count 0. -/
theorem claim_C1 {V : Type} (T reset n0 : Int) (fb : V) (hT : 0 < T) :
    (∀ ts : List Int, (ts.length : Int) = T →
        ((CircuitBreaker.init V T reset fb n0).runFailures ts).state = .OPEN) ∧
    (∀ ts : List Int, (ts.length : Int) = T - 1 →
        ((CircuitBreaker.init V T reset fb n0).runFailures ts).state = .CLOSED ∧
        ∀ (t : Int) (v : V),
          ((((CircuitBreaker.init V T reset fb n0).runFailures ts).call t
              (some v)).breaker.state = .CLOSED ∧
           (((CircuitBreaker.init V T reset fb n0).runFailures ts).call t
              (some v)).breaker.failure_count = 0)) := by
  constructor
  · intro ts hlen
    apply runFailures_trip
    · rfl
    · simp [CircuitBreaker.init, hlen]
    · intro hnil
      rw [hnil] at hlen
      simp at hlen
      omega
  · intro ts hlen
    obtain ⟨h1, h2, -, -⟩ :=
      runFailures_closed_under ts (CircuitBreaker.init V T reset fb n0)
        rfl (by simp [CircuitBreaker.init]; omega)
    refine ⟨h1, fun t v => ?_⟩
    rw [call_closed_success _ t v h1]
    exact ⟨h1, rfl⟩

/-- Witness for claim C1 at T = 2: two failing calls end Open, one
failing call ends Closed, and one failing call followed by a success
ends Closed with failure_count 0. -/
theorem claim_C1_witness :
    (0 : Int) < 2 ∧
    ((∀ ts : List Int, (ts.length : Int) = 2 →
        ((CircuitBreaker.init Bool 2 5 false 0).runFailures ts).state = .OPEN) ∧
     (∀ ts : List Int, (ts.length : Int) = 2 - 1 →
        ((CircuitBreaker.init Bool 2 5 false 0).runFailures ts).state = .CLOSED ∧
        ∀ (t : Int) (v : Bool),
          ((((CircuitBreaker.init Bool 2 5 false 0).runFailures ts).call t
              (some v)).breaker.state = .CLOSED ∧
           (((CircuitBreaker.init Bool 2 5 false 0).runFailures ts).call t
              (some v)).breaker.failure_count = 0))) :=
  ⟨by decide, claim_C1 2 5 0 false (by decide)⟩

/-- Claim C2: a call made while the breaker is Open raises
CircuitBreakerOpenError without invoking the protected operation when the
elapsed time since last_failure_time is strictly below reset_timeout; once
the elapsed time reaches reset_timeout, the state check moves the breaker
to HalfOpen and the call invokes the operation as a probe. -/
theorem claim_C2 {V : Type} (cb : CircuitBreaker V) (now : Int) (op : Option V)
    (h : cb.state = .OPEN) :
    (now - cb.last_failure_time < cb.reset_timeout →
       (cb.call now op).result = .circuitOpenError ∧
       (cb.call now op).invoked = false ∧
       (cb.call now op).breaker.state = .OPEN) ∧
    (cb.reset_timeout ≤ now - cb.last_failure_time →
       (cb.check_state_transition now).state = .HALF_OPEN ∧
       (cb.call now op).invoked = true) := by
  constructor
  · intro hlt
    have hc : cb.check_state_transition now = cb := by
      simp [CircuitBreaker.check_state_transition, h]
      omega
    simp [CircuitBreaker.call, hc, h]
  · intro hge
    have hc : cb.check_state_transition now =
        { cb with state := .HALF_OPEN, last_state_change := now } := by
      simp [CircuitBreaker.check_state_transition, h, hge,
            CircuitBreaker.transition_to_half_open]
    constructor
    · rw [hc]
    · cases op with
      | some v => simp [CircuitBreaker.call, hc]
      | none => simp [CircuitBreaker.call, hc]

/-- Witness for claim C2: a breaker opened at time 0 with reset_timeout 5,
called at time 3 (rejected, not invoked) and checked at time 7 (probe
admitted). -/
theorem claim_C2_witness :
    ({ state := .OPEN, failure_count := 2, success_count := 0, last_failure_time := 0,
       failure_threshold := 2, reset_timeout := 5, fallback_response := false,
       last_state_change := 0 } : CircuitBreaker Bool).state = .OPEN ∧
    ((3 - (0 : Int) < 5 →
       (({ state := .OPEN, failure_count := 2, success_count := 0,
           last_failure_time := 0, failure_threshold := 2, reset_timeout := 5,
           fallback_response := false,
           last_state_change := 0 } : CircuitBreaker Bool).call 3
          (some true)).result = .circuitOpenError ∧
       (({ state := .OPEN, failure_count := 2, success_count := 0,
           last_failure_time := 0, failure_threshold := 2, reset_timeout := 5,
           fallback_response := false,
           last_state_change := 0 } : CircuitBreaker Bool).call 3
          (some true)).invoked = false ∧
       (({ state := .OPEN, failure_count := 2, success_count := 0,
           last_failure_time := 0, failure_threshold := 2, reset_timeout := 5,
           fallback_response := false,
           last_state_change := 0 } : CircuitBreaker Bool).call 3
          (some true)).breaker.state = .OPEN) ∧
     ((5 : Int) ≤ 3 - 0 →
       (({ state := .OPEN, failure_count := 2, success_count := 0,
           last_failure_time := 0, failure_threshold := 2, reset_timeout := 5,
           fallback_response := false,
           last_state_change := 0 } : CircuitBreaker Bool).check_state_transition
          3).state = .HALF_OPEN ∧
       (({ state := .OPEN, failure_count := 2, success_count := 0,
           last_failure_time := 0, failure_threshold := 2, reset_timeout := 5,
           fallback_response := false,
           last_state_change := 0 } : CircuitBreaker Bool).call 3
          (some true)).invoked = true)) :=
  ⟨by decide,
   claim_C2
     { state := .OPEN, failure_count := 2, success_count := 0, last_failure_time := 0,
       failure_threshold := 2, reset_timeout := 5, fallback_response := false,
       last_state_change := 0 } 3 (some true) (by decide)⟩

/-- Claim C3 counterexample: a breaker with threshold 1 tripped by one
failure at time 0, called at time 10 (past the reset timeout 5) with a
succeeding probe: the call returns the result and the breaker closes with
failure_count 0, but success_count ends at 0, not 1 — `_record_success`
runs before `_transition_to_closed`, which zeroes both counters. -/
theorem claim_C3_counterexample :
    ((((CircuitBreaker.init Bool 1 5 false 0).runFailures [0]).call 10
        (some true)).result = .ok true) ∧
    ((((CircuitBreaker.init Bool 1 5 false 0).runFailures [0]).call 10
        (some true)).breaker.state = .CLOSED) ∧
    ((((CircuitBreaker.init Bool 1 5 false 0).runFailures [0]).call 10
        (some true)).breaker.failure_count = 0) ∧
    ¬ ((((CircuitBreaker.init Bool 1 5 false 0).runFailures [0]).call 10
        (some true)).breaker.success_count = 1) := by
  decide

/-- Claim C3 (amended): for every HalfOpen probe call whose protected
operation succeeds, the breaker ends Closed with failure_count 0 and
success_count 0 (the success is recorded first and the Closed transition
then zeroes both counters), and the call returns the operation's
result. -/
theorem claim_C3 {V : Type} (cb : CircuitBreaker V) (now : Int) (v : V)
    (h : cb.state = .HALF_OPEN) :
    (cb.call now (some v)).result = .ok v ∧
    (cb.call now (some v)).breaker.state = .CLOSED ∧
    (cb.call now (some v)).breaker.failure_count = 0 ∧
    (cb.call now (some v)).breaker.success_count = 0 := by
  rw [call_half_open_success cb now v h]
  exact ⟨rfl, rfl, rfl, rfl⟩

/-- Witness for claim C3: a concrete HalfOpen breaker probed successfully
at time 10. -/
theorem claim_C3_witness :
    ({ state := .HALF_OPEN, failure_count := 3, success_count := 0,
       last_failure_time := 0, failure_threshold := 3, reset_timeout := 5,
       fallback_response := false,
       last_state_change := 0 } : CircuitBreaker Bool).state = .HALF_OPEN ∧
    ((({ state := .HALF_OPEN, failure_count := 3, success_count := 0,
         last_failure_time := 0, failure_threshold := 3, reset_timeout := 5,
         fallback_response := false,
         last_state_change := 0 } : CircuitBreaker Bool).call 10
        (some true)).result = .ok true ∧
     (({ state := .HALF_OPEN, failure_count := 3, success_count := 0,
         last_failure_time := 0, failure_threshold := 3, reset_timeout := 5,
         fallback_response := false,
         last_state_change := 0 } : CircuitBreaker Bool).call 10
        (some true)).breaker.state = .CLOSED ∧
     (({ state := .HALF_OPEN, failure_count := 3, success_count := 0,
         last_failure_time := 0, failure_threshold := 3, reset_timeout := 5,
         fallback_response := false,
         last_state_change := 0 } : CircuitBreaker Bool).call 10
        (some true)).breaker.failure_count = 0 ∧
     (({ state := .HALF_OPEN, failure_count := 3, success_count := 0,
         last_failure_time := 0, failure_threshold := 3, reset_timeout := 5,
         fallback_response := false,
         last_state_change := 0 } : CircuitBreaker Bool).call 10
        (some true)).breaker.success_count = 0) :=
  ⟨by decide,
   claim_C3
     { state := .HALF_OPEN, failure_count := 3, success_count := 0,
       last_failure_time := 0, failure_threshold := 3, reset_timeout := 5,
       fallback_response := false, last_state_change := 0 } 10 true (by decide)⟩

/-- Claim C10: a call made while the breaker is Open before reset_timeout
elapses raises CircuitBreakerOpenError, and `call` never returns the
configured fallback_response: whatever the breaker, any returned value is
exactly the protected operation's own result. -/
theorem claim_C10 {V : Type} (cb : CircuitBreaker V) (now : Int) (op : Option V)
    (h : cb.state = .OPEN) (helapsed : now - cb.last_failure_time < cb.reset_timeout) :
    (cb.call now op).result = .circuitOpenError ∧
    (∀ (cb2 : CircuitBreaker V) (n2 : Int) (op2 : Option V) (v : V),
        (cb2.call n2 op2).result = .ok v → op2 = some v) := by
  refine ⟨((claim_C2 cb now op h).1 helapsed).1, fun cb2 n2 op2 v hres => ?_⟩
  exact call_ok_from_op cb2 n2 op2 v hres

/-- Witness for claim C10: a breaker opened at time 0 with reset_timeout
5 and fallback_response `true`, called at time 3. -/
theorem claim_C10_witness :
    ({ state := .OPEN, failure_count := 2, success_count := 0, last_failure_time := 0,
       failure_threshold := 2, reset_timeout := 5, fallback_response := true,
       last_state_change := 0 } : CircuitBreaker Bool).state = .OPEN ∧
    (3 - (0 : Int) < 5) ∧
    ((({ state := .OPEN, failure_count := 2, success_count := 0,
         last_failure_time := 0, failure_threshold := 2, reset_timeout := 5,
         fallback_response := true,
         last_state_change := 0 } : CircuitBreaker Bool).call 3
        (some false)).result = .circuitOpenError ∧
     (∀ (cb2 : CircuitBreaker Bool) (n2 : Int) (op2 : Option Bool) (v : Bool),
        (cb2.call n2 op2).result = .ok v → op2 = some v)) :=
  ⟨by decide, by decide,
   claim_C10
     { state := .OPEN, failure_count := 2, success_count := 0, last_failure_time := 0,
       failure_threshold := 2, reset_timeout := 5, fallback_response := true,
       last_state_change := 0 } 3 (some false) (by decide) (by decide)⟩

/-! ## Rate limiter lemmas -/

theorem allow_request_first (rl : RateLimiter) (st : CounterState)
    (hc : st.count = none) :
    rl.allow_request true st = ⟨true, ⟨some 1, some rl.window_seconds⟩, true⟩ := by
  simp [RateLimiter.allow_request, redisIncr, redisExpire, hc]

theorem allow_request_existing (rl : RateLimiter) (st : CounterState) (c0 : Int)
    (hc : st.count = some c0) (h1 : c0 + 1 ≠ 1) :
    (rl.allow_request true st).backend = { st with count := some (c0 + 1) } ∧
    (rl.allow_request true st).expire_invoked = false ∧
    ((rl.allow_request true st).allowed = true ↔ c0 + 1 ≤ rl.threshold) := by
  by_cases hR : rl.threshold < c0 + 1
  · simp [RateLimiter.allow_request, redisIncr, hc, h1, hR]
  · simp [RateLimiter.allow_request, redisIncr, hc, h1, hR]
    omega

theorem runRequests_spec (R W : Int) (n : Nat) :
    ((RateLimiter.init R W).runRequests n).count =
      (if n = 0 then none else some (n : Int)) ∧
    ((RateLimiter.init R W).runRequests n).ttl =
      (if n = 0 then none else some W) := by
  induction n with
  | zero => simp [RateLimiter.runRequests, CounterState.empty]
  | succ n ih =>
    obtain ⟨hc, ht⟩ := ih
    rw [RateLimiter.runRequests]
    by_cases h0 : n = 0
    · subst h0
      rw [allow_request_first _ _ (by simpa using hc)]
      simp [RateLimiter.init]
    · have hc2 : ((RateLimiter.init R W).runRequests n).count = some (n : Int) := by
        rw [hc]; simp [h0]
      have hn1 : (n : Int) + 1 ≠ 1 := by
        have : n ≠ 0 := h0
        omega
      obtain ⟨hb, -, -⟩ := allow_request_existing (RateLimiter.init R W) _ _ hc2 hn1
      rw [hb]
      rw [ht]
      simp [h0]

/-- Claim C4: for every positive threshold R and every key within one
window, each of the first R requests returns true, every request whose
post-increment count exceeds R returns false, and every request (allowed
or denied) increments the backend counter by exactly 1 with no rollback
on denial: the counter after the j-th request is exactly j. -/
theorem claim_C4 (R W : Int) (j : Nat) (hR : 0 < R) (hj : 0 < j) :
    ((RateLimiter.init R W).runRequests j).count = some (j : Int) ∧
    ((RateLimiter.init R W).runRequests j).count.getD 0 =
      ((RateLimiter.init R W).runRequests (j - 1)).count.getD 0 + 1 ∧
    (((RateLimiter.init R W).nthRequest j).allowed = true ↔ (j : Int) ≤ R) := by
  have hj0 : j ≠ 0 := by omega
  have hcount : ((RateLimiter.init R W).runRequests j).count = some (j : Int) := by
    rw [(runRequests_spec R W j).1]; simp [hj0]
  refine ⟨hcount, ?_, ?_⟩
  · rw [hcount, (runRequests_spec R W (j - 1)).1]
    by_cases h1 : j - 1 = 0
    · simp [h1]; omega
    · simp [h1]; omega
  · unfold RateLimiter.nthRequest
    by_cases h1 : j = 1
    · subst h1
      rw [allow_request_first _ _ (by rw [(runRequests_spec R W 0).1]; simp)]
      simpa using hR
    · have hj1 : j - 1 ≠ 0 := by omega
      have hprev : ((RateLimiter.init R W).runRequests (j - 1)).count
          = some ((j - 1 : Nat) : Int) := by
        rw [(runRequests_spec R W (j - 1)).1]; simp [hj1]
      obtain ⟨-, -, hiff⟩ := allow_request_existing (RateLimiter.init R W) _ _ hprev
        (by omega)
      rw [hiff]
      simp only [RateLimiter.init]
      constructor <;> intro <;> omega

/-- Witness for claim C4 at R = 3, W = 60, j = 4: the counter reaches 4,
the 4-th request increments it from 3, and the request is denied. -/
theorem claim_C4_witness :
    (0 : Int) < 3 ∧ 0 < 4 ∧
    (((RateLimiter.init 3 60).runRequests 4).count = some (4 : Int) ∧
     ((RateLimiter.init 3 60).runRequests 4).count.getD 0 =
       ((RateLimiter.init 3 60).runRequests (4 - 1)).count.getD 0 + 1 ∧
     (((RateLimiter.init 3 60).nthRequest 4).allowed = true ↔ (4 : Int) ≤ 3)) :=
  ⟨by decide, by decide, claim_C4 3 60 4 (by decide) (by decide)⟩

/-- Claim C5: within one window, starting from an absent key, EXPIRE (the
TTL attachment, with TTL equal to the window length) is invoked exactly
on the request that takes the counter from absent to 1 — the first — and
on no subsequent request; after any positive number of requests the
attached TTL is the window length. -/
theorem claim_C5 (R W : Int) (j : Nat) (hj : 0 < j) :
    (((RateLimiter.init R W).nthRequest j).expire_invoked = true ↔ j = 1) ∧
    ((RateLimiter.init R W).runRequests j).ttl = some W := by
  constructor
  · unfold RateLimiter.nthRequest
    by_cases h1 : j = 1
    · subst h1
      rw [allow_request_first _ _ (by rw [(runRequests_spec R W 0).1]; simp)]
      simp
    · have hj1 : j - 1 ≠ 0 := by omega
      have hprev : ((RateLimiter.init R W).runRequests (j - 1)).count
          = some ((j - 1 : Nat) : Int) := by
        rw [(runRequests_spec R W (j - 1)).1]; simp [hj1]
      obtain ⟨-, hexp, -⟩ := allow_request_existing (RateLimiter.init R W) _ _ hprev
        (by omega)
      rw [hexp]
      simp [h1]
  · have hj0 : j ≠ 0 := by omega
    rw [(runRequests_spec R W j).2]; simp [hj0]

/-- Witness for claim C5 at j = 2: the second request does not invoke
EXPIRE and the TTL is still the window length. -/
theorem claim_C5_witness :
    0 < 2 ∧
    ((((RateLimiter.init 3 60).nthRequest 2).expire_invoked = true ↔ 2 = 1) ∧
     ((RateLimiter.init 3 60).runRequests 2).ttl = some 60) :=
  ⟨by decide, claim_C5 3 60 2 (by decide)⟩

/-- Claim C6: when the key-value backend is unavailable (every backend
operation raises), `allow_request` returns true with the backend state
untouched, `CacheService.get` returns None, and `CacheService.set`
returns False — each absorbing the backend exception rather than raising
(the embedded operations are total functions). -/
theorem claim_C6 {J : Type} (loads : String → Option (Option J))
    (dumps : Option J → String) (rl : RateLimiter) (st : CounterState)
    (cs : CacheService) (kst : KVStore) (k k2 : String) (v : Option J)
    (ttl : Option Int) (now now2 : Int) :
    rl.allow_request false st = ⟨true, st, false⟩ ∧
    CacheService.get loads cs false kst k now = none ∧
    CacheService.set dumps cs false kst k2 v ttl now2 = (false, kst) :=
  ⟨rfl, rfl, rfl⟩

/-- Claim C7 counterexample: a CircuitBreaker constructed with failure
threshold 0 and reset timeout -1 is a normal Closed breaker (the
constructor performs no validation and raises nothing), a RateLimiter
constructed with threshold 0 and window 0 stores them unchecked, and even
the startup `Settings.validate` accepts a configuration whose rate-limit
window is 0 — no ConfigurationError arises at construction for these
non-positive values. -/
theorem claim_C7_counterexample :
    (CircuitBreaker.init Bool 0 (-1) false 0).state = .CLOSED ∧
    (CircuitBreaker.init Bool 0 (-1) false 0).failure_threshold = 0 ∧
    RateLimiter.init 0 0 = ⟨0, 0⟩ ∧
    Settings.validate ⟨300, 10, 0, 5, 30, 1/10⟩ = .ok true := by
  refine ⟨rfl, rfl, rfl, ?_⟩
  simp [Settings.validate]
  norm_num

/-- Claim C7 (amended): component constructors validate nothing — they
store any threshold, timeout or window, positive or not, and never raise;
the only configuration check is `Settings.validate`, run at application
startup, which raises (a ValueError, not at construction) exactly when
the failure rate leaves [0, 1] or one of rate-limit request count, cache
TTL, breaker failure threshold, breaker reset timeout is non-positive —
and it never inspects the rate-limit window. -/
theorem claim_C7 (s : Settings) (t r n0 : Int) (fb : Bool) (thr w : Int) :
    ((CircuitBreaker.init Bool t r fb n0).failure_threshold = t ∧
     (CircuitBreaker.init Bool t r fb n0).reset_timeout = r ∧
     (CircuitBreaker.init Bool t r fb n0).state = .CLOSED) ∧
    RateLimiter.init thr w = ⟨thr, w⟩ ∧
    (Settings.validate s = .ok true ↔
      (0 ≤ s.EXTERNAL_SERVICE_FAILURE_RATE ∧ s.EXTERNAL_SERVICE_FAILURE_RATE ≤ 1 ∧
       0 < s.RATE_LIMIT_REQUESTS ∧ 0 < s.CACHE_TTL_SECONDS ∧
       0 < s.CIRCUIT_BREAKER_FAILURE_THRESHOLD ∧
       0 < s.CIRCUIT_BREAKER_RESET_TIMEOUT)) ∧
    (∀ w2 : Int,
      Settings.validate { s with RATE_LIMIT_WINDOW_SECONDS := w2 } =
        Settings.validate s) := by
  refine ⟨⟨rfl, rfl, rfl⟩, rfl, ?_, fun w2 => ?_⟩
  · unfold Settings.validate
    split_ifs <;> simp_all
  · cases s
    rfl

/-- Claim C8: with a working backend, `set k v ttl` (positive ttl)
returns True, and a `get k` at any time before the entry expires returns
v unchanged — serialize-then-deserialize is the identity on every
storable value, given the json contract (round-trip, non-empty
encoding). -/
theorem claim_C8 {J : Type} (dumps : Option J → String)
    (loads : String → Option (Option J))
    (hrt : ∀ v : Option J, loads (dumps v) = some v)
    (hne : ∀ v : Option J, dumps v ≠ "")
    (cs : CacheService) (st : KVStore) (k : String) (v : Option J)
    (ttl now now2 : Int) (httl : 0 < ttl) (hbefore : now2 < now + ttl) :
    (CacheService.set dumps cs true st k v (some ttl) now).1 = true ∧
    CacheService.get loads cs true
      (CacheService.set dumps cs true st k v (some ttl) now).2 k now2 = v := by
  have httl0 : ttl ≠ 0 := by omega
  constructor
  · simp [CacheService.set, redisSetex, httl0]
  · simp [CacheService.set, redisSetex, httl0, CacheService.get, redisGet,
          KVStore.insert, hbefore, hne v, hrt v]

/-- Witness for claim C8: caching the boolean `true` under key "k" with
ttl 10 at time 0 and reading it back at time 5. -/
theorem claim_C8_witness :
    (∀ v : Option Bool, boolLoads (boolDumps v) = some v) ∧
    (∀ v : Option Bool, boolDumps v ≠ "") ∧
    (0 : Int) < 10 ∧ (5 : Int) < 0 + 10 ∧
    ((CacheService.set boolDumps ⟨300⟩ true KVStore.empty "k" (some true)
        (some 10) 0).1 = true ∧
     CacheService.get boolLoads ⟨300⟩ true
       (CacheService.set boolDumps ⟨300⟩ true KVStore.empty "k" (some true)
          (some 10) 0).2 "k" 5 = some true) :=
  ⟨by decide, by decide, by decide, by decide,
   claim_C8 boolDumps boolLoads (by decide) (by decide) ⟨300⟩ KVStore.empty "k"
     (some true) 10 0 5 (by decide) (by decide)⟩

/-- Claim C9 counterexample: cache key "k" holds the value None (JSON
"null"), stored at time 0 with ttl 10 and thus present and unexpired at
time 5 — yet `get_or_set` at time 5 invokes the producer (once) instead
of returning the cached value without invoking it, because a cached null
is indistinguishable from a miss in `get`. -/
theorem claim_C9_counterexample :
    ((CacheService.set boolDumps ⟨300⟩ true KVStore.empty "k" none (some 10) 0).2
        "k" = some (10, "null")) ∧
    (CacheService.get_or_set boolLoads boolDumps ⟨300⟩ true
        (CacheService.set boolDumps ⟨300⟩ true KVStore.empty "k" none (some 10) 0).2
        "k" (some false) none 5).producer_calls = 1 ∧
    ¬ (CacheService.get_or_set boolLoads boolDumps ⟨300⟩ true
        (CacheService.set boolDumps ⟨300⟩ true KVStore.empty "k" none (some 10) 0).2
        "k" (some false) none 5).producer_calls = 0 := by
  refine ⟨?_, ?_, ?_⟩ <;> decide

/-- Claim C9 (amended): `get_or_set` keys its behaviour on what `get`
reports, and a cached null reads as a miss.  On a hit — `get` returns a
non-None value — it returns that value, leaves the store untouched and
never invokes the producer.  Otherwise — key absent, entry expired, or
the cached value null — it invokes the producer exactly once, stores its
result (a later `get` before the new entry's expiry returns it), and
returns it. -/
theorem claim_C9 {J : Type} (loads : String → Option (Option J))
    (dumps : Option J → String)
    (hrt : ∀ v : Option J, loads (dumps v) = some v)
    (hne : ∀ v : Option J, dumps v ≠ "")
    (cs : CacheService) (st : KVStore) (k : String) (producer : Option J)
    (ttl now now2 : Int) (httl : 0 < ttl) (hbefore : now2 < now + ttl) :
    (∀ j : J, CacheService.get loads cs true st k now = some j →
        (CacheService.get_or_set loads dumps cs true st k producer (some ttl)
            now).result = some j ∧
        (CacheService.get_or_set loads dumps cs true st k producer (some ttl)
            now).store = st ∧
        (CacheService.get_or_set loads dumps cs true st k producer (some ttl)
            now).producer_calls = 0) ∧
    (CacheService.get loads cs true st k now = none →
        (CacheService.get_or_set loads dumps cs true st k producer (some ttl)
            now).result = producer ∧
        (CacheService.get_or_set loads dumps cs true st k producer (some ttl)
            now).producer_calls = 1 ∧
        CacheService.get loads cs true
          (CacheService.get_or_set loads dumps cs true st k producer (some ttl)
            now).store k now2 = producer) := by
  constructor
  · intro j hhit
    simp [CacheService.get_or_set, hhit]
  · intro hmiss
    have hstore := claim_C8 dumps loads hrt hne cs st k producer ttl now now2
      httl hbefore
    refine ⟨?_, ?_, ?_⟩ <;> simp [CacheService.get_or_set, hmiss, hstore.2]

/-- Witness for claim C9: the boolean encoding with key "k", producer
result `false`, ttl 10, written at time 0 and read back at time 5. -/
theorem claim_C9_witness :
    (∀ v : Option Bool, boolLoads (boolDumps v) = some v) ∧
    (∀ v : Option Bool, boolDumps v ≠ "") ∧
    (0 : Int) < 10 ∧ (5 : Int) < 0 + 10 ∧
    ((∀ j : Bool, CacheService.get boolLoads ⟨300⟩ true KVStore.empty "k" 0 = some j →
        (CacheService.get_or_set boolLoads boolDumps ⟨300⟩ true KVStore.empty "k"
            (some false) (some 10) 0).result = some j ∧
        (CacheService.get_or_set boolLoads boolDumps ⟨300⟩ true KVStore.empty "k"
            (some false) (some 10) 0).store = KVStore.empty ∧
        (CacheService.get_or_set boolLoads boolDumps ⟨300⟩ true KVStore.empty "k"
            (some false) (some 10) 0).producer_calls = 0) ∧
     (CacheService.get boolLoads ⟨300⟩ true KVStore.empty "k" 0 = none →
        (CacheService.get_or_set boolLoads boolDumps ⟨300⟩ true KVStore.empty "k"
            (some false) (some 10) 0).result = some false ∧
        (CacheService.get_or_set boolLoads boolDumps ⟨300⟩ true KVStore.empty "k"
            (some false) (some 10) 0).producer_calls = 1 ∧
        CacheService.get boolLoads ⟨300⟩ true
          (CacheService.get_or_set boolLoads boolDumps ⟨300⟩ true KVStore.empty "k"
            (some false) (some 10) 0).store "k" 5 = some false)) :=
  ⟨by decide, by decide, by decide, by decide,
   claim_C9 boolLoads boolDumps (by decide) (by decide) ⟨300⟩ KVStore.empty "k"
     (some false) 10 0 5 (by decide) (by decide)⟩

end Resilient
